import Mathlib

/-!
Verification of the go-hdb data plane: type-code registry, the
queryResultSet paging state machine, the query result set cache, and
timestamp encoding behaviour.  Definitions are shallow embeddings of the
Go sources in internal/protocol/typecode.go and the protocol result set
file; each is translated statement by statement from the Go code.
-/

/-- A wire type code is a single byte (Go: type typeCode byte). -/
abbrev typeCode := Fin 256

def tcTinyint : typeCode := 0x01
def tcSmallint : typeCode := 0x02
def tcInteger : typeCode := 0x03
def tcBigint : typeCode := 0x04
def tcDecimal : typeCode := 0x05
def tcReal : typeCode := 0x06
def tcDouble : typeCode := 0x07
def tcChar : typeCode := 0x08
def tcVarchar : typeCode := 0x09
def tcNchar : typeCode := 0x0A
def tcNvarchar : typeCode := 0x0B
def tcBinary : typeCode := 0x0C
def tcVarbinary : typeCode := 0x0D
def tcDate : typeCode := 0x0E
def tcTime : typeCode := 0x0F
def tcTimestamp : typeCode := 0x10
def tcClob : typeCode := 0x19
def tcNclob : typeCode := 0x1A
def tcBlob : typeCode := 0x1B
def tcBoolean : typeCode := 0x1C
def tcString : typeCode := 0x1D
def tcNstring : typeCode := 0x1E
def tcLocator : typeCode := 0x1F
def tcNlocator : typeCode := 0x20
def tcSmalldecimal : typeCode := 0x2F
def tcText : typeCode := 0x33
def tcShorttext : typeCode := 0x34
def tcBintext : typeCode := 0x35
def tcAlphanum : typeCode := 0x37
def tcLongdate : typeCode := 0x3D
def tcSeconddate : typeCode := 0x3E
def tcDaydate : typeCode := 0x3F
def tcSecondtime : typeCode := 0x40
def tcTableRef : typeCode := 0x7E
def tcTableRows : typeCode := 0x7F

/-- Canonical driver data types (Go: DataType constants referenced by
dataTypeMap). -/
inductive DataType where
  | DtTinyint
  | DtSmallint
  | DtInteger
  | DtBigint
  | DtReal
  | DtDouble
  | DtTime
  | DtDecimal
  | DtString
  | DtBytes
  | DtLob
  | DtBoolean
  | DtRows
  deriving DecidableEq, Repr

open DataType

/-- The fixed registry (Go: var dataTypeMap), entries in source order. -/
def dataTypeMap : List (typeCode × DataType) :=
  [ (tcTinyint, DtTinyint)
  , (tcSmallint, DtSmallint)
  , (tcInteger, DtInteger)
  , (tcBigint, DtBigint)
  , (tcReal, DtReal)
  , (tcDouble, DtDouble)
  , (tcDate, DtTime)
  , (tcTime, DtTime)
  , (tcTimestamp, DtTime)
  , (tcLongdate, DtTime)
  , (tcSeconddate, DtTime)
  , (tcDaydate, DtTime)
  , (tcSecondtime, DtTime)
  , (tcDecimal, DtDecimal)
  , (tcChar, DtString)
  , (tcVarchar, DtString)
  , (tcString, DtString)
  , (tcAlphanum, DtString)
  , (tcNchar, DtString)
  , (tcNvarchar, DtString)
  , (tcNstring, DtString)
  , (tcShorttext, DtString)
  , (tcBinary, DtBytes)
  , (tcVarbinary, DtBytes)
  , (tcBlob, DtLob)
  , (tcClob, DtLob)
  , (tcNclob, DtLob)
  , (tcText, DtLob)
  , (tcBintext, DtLob)
  , (tcTableRef, DtString)
  , (tcTableRows, DtRows)
  ]

/-- Association-list lookup used to embed the Go map access dataTypeMap[tc]. -/
def lookupTc : List (typeCode × DataType) → typeCode → Option DataType
  | [], _ => none
  | (k, v) :: rest, tc => if tc = k then some v else lookupTc rest tc

/-- The registered codes: the key set of dataTypeMap. -/
def dataTypeKeys : List typeCode := dataTypeMap.map Prod.fst

/-- A failed classification (Go: panic in typeCode.dataType). -/
inductive DecodeErr where
  | unknownTypeCode (tc : typeCode)
  deriving DecidableEq, Repr

/-- Classification of a type code (Go: func (tc typeCode) dataType()).
The Go code panics when the code is not in dataTypeMap; the panic is
embedded as the error branch. -/
def dataType (tc : typeCode) : Except DecodeErr DataType :=
  match lookupTc dataTypeMap tc with
  | some dt => Except.ok dt
  | none => Except.error (DecodeErr.unknownTypeCode tc)

/-- Tests whether classification succeeded. -/
def isOkDataType : Except DecodeErr DataType → Bool
  | Except.ok _ => true
  | Except.error _ => false

/-- Encoding alias (Go: func (tc typeCode) encTc()): text, bintext and
locator collapse onto nclob, every other code is unchanged. -/
def encTc (tc : typeCode) : typeCode :=
  if tc = tcText ∨ tc = tcBintext ∨ tc = tcLocator then tcNclob else tc

instance : DecidableEq (Except DecodeErr DataType)
  | Except.ok a, Except.ok b =>
      if h : a = b then Decidable.isTrue (congrArg Except.ok h)
      else Decidable.isFalse (fun hc => h (Except.ok.inj hc))
  | Except.ok _, Except.error _ => Decidable.isFalse (fun hc => Except.noConfusion hc)
  | Except.error _, Except.ok _ => Decidable.isFalse (fun hc => Except.noConfusion hc)
  | Except.error a, Except.error b =>
      if h : a = b then Decidable.isTrue (congrArg Except.error h)
      else Decidable.isFalse (fun hc => h (Except.error.inj hc))

set_option maxRecDepth 100000 in
/-- C1: for every type code in the fixed registry the classification
returns exactly one canonical type (the registry has no duplicate keys
and dataType succeeds), and for every code outside the registry the
classification fails with an unknown-type-code error; it never returns a
default canonical type. -/
theorem dataType_total_on_registry :
    dataTypeKeys.Nodup ∧
    ∀ tc : typeCode,
      (isOkDataType (dataType tc) = true ↔ tc ∈ dataTypeKeys) ∧
      (tc ∉ dataTypeKeys →
        dataType tc = Except.error (DecodeErr.unknownTypeCode tc)) := by
  decide

/-- Witness for C1: code 0x2A is not registered and classifying it fails;
code 0x01 is registered and classifying it succeeds. -/
theorem dataType_total_on_registry_wit :
    ((0x2A : typeCode) ∉ dataTypeKeys ∧
      dataType 0x2A = Except.error (DecodeErr.unknownTypeCode 0x2A)) ∧
    isOkDataType (dataType 0x01) = true :=
  ⟨⟨by decide, (dataType_total_on_registry.2 0x2A).2 (by decide)⟩,
    (dataType_total_on_registry.2 0x01).1.mpr (by decide)⟩

set_option maxRecDepth 100000 in
/-- C7: encTc maps exactly text, bintext and locator to nclob, is the
identity on every other type code, and is idempotent. -/
theorem encTc_alias_idempotent :
    (encTc tcText = tcNclob ∧ encTc tcBintext = tcNclob ∧
      encTc tcLocator = tcNclob) ∧
    (∀ tc : typeCode, tc ≠ tcText → tc ≠ tcBintext → tc ≠ tcLocator →
      encTc tc = tc) ∧
    (∀ tc : typeCode, encTc (encTc tc) = encTc tc) := by
  decide

/-- Witness for C7: the nvarchar code differs from the three aliased codes
and encTc leaves it unchanged; applying encTc twice to the text code
equals applying it once. -/
theorem encTc_alias_idempotent_wit :
    encTc tcNvarchar = tcNvarchar ∧ encTc (encTc tcText) = encTc tcText :=
  ⟨encTc_alias_idempotent.2.1 tcNvarchar (by decide) (by decide) (by decide),
    encTc_alias_idempotent.2.2 tcText⟩

/-!
The queryResultSet paging state machine and its collaborators, embedded
from the protocol result set source file.  Rows are abstracted to
natural numbers (the cursor never inspects row contents, it only copies
them).  The Session collaborator is external to the sources; it is
embedded as a reply script indexed by the number of fetchNext calls
issued so far, together with counters observing the network traffic.
-/

/-- A rows result: the current page of one logical result set (Go
interface rowsResult: numRow is rows.length, lastPacket and rsID are the
corresponding accessors). -/
structure rowsResult where
  rows : List Nat
  lastPacket : Bool
  rsID : Nat
  deriving DecidableEq, Repr

/-- Modelled from the spec: the rowsResult implementations are not among
the given sources; per the spec the server implicitly closes a result
set when it delivers the final packet, so the closed attribute holds
exactly when the last packet has been received. -/
def rowsResult.closed (rr : rowsResult) : Bool := rr.lastPacket

/-- Reply of the Session to one fetchNext call: a replacement page or a
fetch error (errors are abstracted to numeric codes). -/
inductive FetchReply where
  | page (rows : List Nat) (lastPacket : Bool)
  | failure (e : Nat)

/-- The Session collaborator: identified by sid (Go compares session
pointers; distinct sessions carry distinct sids), a bad-connection flag,
a reply script for fetchNext, a reply script for CloseResultsetID (none
is the ack, some e a server-reported error), and counters of issued
fetchNext and CloseResultsetID calls. -/
structure Session where
  sid : Nat
  isBad : Bool
  script : Nat → FetchReply
  closeReply : Nat → Option Nat
  fetchCount : Nat
  closeCalls : Nat

/-- One fetchNext round trip: consumes the next scripted reply and
counts the call. -/
def Session.fetchReply (s : Session) : FetchReply × Session :=
  (s.script s.fetchCount, { s with fetchCount := s.fetchCount + 1 })

/-- The cursor state (Go struct queryResultSet): owning session, the
result sets, current result set index, within-page position and the
recorded last error.  The Go field rr always equals rrs[idx] and is
embedded as the derived accessor rr below. -/
structure queryResultSet where
  s : Session
  rrs : List rowsResult
  idx : Nat
  pos : Nat
  lastErr : Option Nat

def rrDefault : rowsResult := { rows := [], lastPacket := true, rsID := 0 }

/-- The current rows result (Go field r.rr, kept equal to r.rrs[r.idx]). -/
def queryResultSet.rr (q : queryResultSet) : rowsResult :=
  q.rrs.getD q.idx rrDefault

/-- Constructor (Go newQueryResultSet); the Go code panics on an empty
result list, embedded as the none branch. -/
def newQueryResultSet (s : Session) (rrs : List rowsResult) :
    Option queryResultSet :=
  if rrs.isEmpty then none
  else some { s := s, rrs := rrs, idx := 0, pos := 0, lastErr := none }

/-- Outcome of one Next call: a copied row, io.EOF, a fetch error, or
driver.ErrBadConn. -/
inductive NextOutcome where
  | row (v : Nat)
  | eof
  | failure (e : Nat)
  | badConn
  deriving DecidableEq, Repr

/-- One Next call (Go func (r *queryResultSet) Next).  Statement by
statement: bad-connection check; position check against numRow; last
packet gives io.EOF; otherwise one blocking fetchNext whose failure
records lastErr and leaves the rows result with nil field values and
attributes, and whose success replaces the current page, an empty page
being answered with io.EOF; otherwise copy the row at pos and advance. -/
def queryResultSet.Next (q : queryResultSet) : NextOutcome × queryResultSet :=
  if q.s.isBad then (NextOutcome.badConn, q)
  else if q.rr.rows.length ≤ q.pos then
    if q.rr.lastPacket then (NextOutcome.eof, q)
    else
      match q.s.fetchReply with
      | (FetchReply.failure e, s1) =>
        (NextOutcome.failure e,
          { q with s := s1
                 , rrs := q.rrs.set q.idx
                     { rows := [], lastPacket := false, rsID := q.rr.rsID }
                 , lastErr := some e })
      | (FetchReply.page rows lp, s1) =>
        let q1 := { q with s := s1
                         , rrs := q.rrs.set q.idx
                             { rows := rows, lastPacket := lp, rsID := q.rr.rsID } }
        if rows.length = 0 then (NextOutcome.eof, q1)
        else (NextOutcome.row (rows.getD 0 0), { q1 with pos := 1 })
  else (NextOutcome.row (q.rr.rows.getD q.pos 0), { q with pos := q.pos + 1 })

/-- One Close call (Go func (r *queryResultSet) Close): a recorded error
is returned as is; otherwise, exactly when the rows result is not
already closed, the server-side handle is released via CloseResultsetID
and that call's own result (ack or error) is returned.  CloseResultsetID
is external and embedded as a counted scripted reply.  Close mutates no
cursor field. -/
def queryResultSet.Close (q : queryResultSet) : Option Nat × queryResultSet :=
  match q.lastErr with
  | some e => (some e, q)
  | none =>
    if q.rr.closed then (none, q)
    else
      (q.s.closeReply q.s.closeCalls,
        { q with s := { q.s with closeCalls := q.s.closeCalls + 1 } })

/-- Go func (r *queryResultSet) HasNextResultSet. -/
def queryResultSet.HasNextResultSet (q : queryResultSet) : Bool :=
  q.idx + 1 < q.rrs.length

/-- Outcome of NextResultSet: nil or io.EOF. -/
inductive AdvanceResult where
  | ok
  | eof
  deriving DecidableEq, Repr

/-- Go func (r *queryResultSet) NextResultSet: io.EOF when no further
result set exists, otherwise clear lastErr and advance idx; the Go code
does not touch pos. -/
def queryResultSet.NextResultSet (q : queryResultSet) :
    AdvanceResult × queryResultSet :=
  if q.HasNextResultSet then
    (AdvanceResult.ok, { q with lastErr := none, idx := q.idx + 1 })
  else (AdvanceResult.eof, q)

/-- Iterates Next a given number of times, collecting the outcomes. -/
def queryResultSet.runNext : Nat → queryResultSet → List NextOutcome × queryResultSet
  | 0, q => ([], q)
  | Nat.succ n, q =>
    let p := q.Next
    let rest := queryResultSet.runNext n p.2
    (p.1 :: rest.1, rest.2)

/-- Session of the C2 scenario: every fetch returns the final two-row
page. -/
def c2Session : Session :=
  { sid := 1, isBad := false
  , script := fun _ => FetchReply.page [4, 5] true
  , closeReply := fun _ => none
  , fetchCount := 0, closeCalls := 0 }

/-- Cursor of the C2 scenario: one result set whose first page has three
rows and is not final. -/
def c2Cursor : queryResultSet :=
  { s := c2Session
  , rrs := [{ rows := [1, 2, 3], lastPacket := false, rsID := 11 }]
  , idx := 0, pos := 0, lastErr := none }

/-- C2: over a two-page result set (page 1: rows 1,2,3, not final;
page 2: rows 4,5, final) six Next calls yield the five rows in order and
then io.EOF, exactly one fetchNext call is issued, and Close after the
full drain returns nil without a server-side close call. -/
theorem cursor_two_page_drain :
    (c2Cursor.runNext 6).1 =
      [NextOutcome.row 1, NextOutcome.row 2, NextOutcome.row 3,
        NextOutcome.row 4, NextOutcome.row 5, NextOutcome.eof] ∧
    (c2Cursor.runNext 6).2.s.fetchCount = 1 ∧
    ((c2Cursor.runNext 6).2.Close).1 = none ∧
    ((c2Cursor.runNext 6).2.Close).2.s.closeCalls = 0 := by
  decide

/-- Session of the C3 scenario: the first fetch fails with error 5, the
second fetch delivers a final one-row page. -/
def c3Session : Session :=
  { sid := 2, isBad := false
  , script := fun n => if n = 0 then FetchReply.failure 5 else FetchReply.page [7] true
  , closeReply := fun _ => none
  , fetchCount := 0, closeCalls := 0 }

/-- Cursor of the C3 scenario: one result set whose current page is
empty and not final. -/
def c3Cursor : queryResultSet :=
  { s := c3Session
  , rrs := [{ rows := [], lastPacket := false, rsID := 21 }]
  , idx := 0, pos := 0, lastErr := none }

/-- Counterexample to C3: after a fetch failure (error 5 is recorded in
lastErr) the very next Next call does not return the same error and does
not avoid the network: it issues a second fetchNext and even returns a
row. -/
theorem errored_cursor_refetches :
    ((c3Cursor.Next).1 = NextOutcome.failure 5 ∧
      (c3Cursor.Next).2.lastErr = some 5) ∧
    ((c3Cursor.Next).2.Next).1 = NextOutcome.row 7 ∧
    ((c3Cursor.Next).2.Next).2.s.fetchCount = 2 := by
  decide

theorem getD_set_self (l : List rowsResult) (i : Nat) (a : rowsResult)
    (h : i < l.length) : (l.set i a).getD i rrDefault = a := by
  simp [List.getD, List.getElem?_set_eq_of_lt, h]

theorem Next_bad (q : queryResultSet) (h : q.s.isBad = true) :
    q.Next = (NextOutcome.badConn, q) := by
  unfold queryResultSet.Next
  rw [h]
  simp

theorem Next_row (q : queryResultSet) (hbad : q.s.isBad = false)
    (h : q.pos < q.rr.rows.length) :
    q.Next = (NextOutcome.row (q.rr.rows.getD q.pos 0), { q with pos := q.pos + 1 }) := by
  unfold queryResultSet.Next
  rw [hbad, if_neg Bool.false_ne_true, if_neg (Nat.not_le_of_lt h)]

theorem Next_eof (q : queryResultSet) (hbad : q.s.isBad = false)
    (hpos : q.rr.rows.length ≤ q.pos) (hlast : q.rr.lastPacket = true) :
    q.Next = (NextOutcome.eof, q) := by
  unfold queryResultSet.Next
  rw [hbad, if_neg Bool.false_ne_true, if_pos hpos, hlast, if_pos rfl]

theorem Next_fetch_failure (q : queryResultSet) (e : Nat)
    (hbad : q.s.isBad = false) (hpos : q.rr.rows.length ≤ q.pos)
    (hlast : q.rr.lastPacket = false)
    (hfail : q.s.script q.s.fetchCount = FetchReply.failure e) :
    q.Next =
      (NextOutcome.failure e,
        { q with s := { q.s with fetchCount := q.s.fetchCount + 1 }
               , rrs := q.rrs.set q.idx
                   { rows := [], lastPacket := false, rsID := q.rr.rsID }
               , lastErr := some e }) := by
  unfold queryResultSet.Next Session.fetchReply
  rw [hbad, if_neg Bool.false_ne_true, if_pos hpos, hlast,
    if_neg Bool.false_ne_true, hfail]
  simp [hbad]

theorem Next_fetch_page (q : queryResultSet) (rows : List Nat) (lp : Bool)
    (hbad : q.s.isBad = false) (hpos : q.rr.rows.length ≤ q.pos)
    (hlast : q.rr.lastPacket = false)
    (hpage : q.s.script q.s.fetchCount = FetchReply.page rows lp) :
    q.Next =
      (let q1 : queryResultSet :=
        { q with s := { q.s with fetchCount := q.s.fetchCount + 1 }
               , rrs := q.rrs.set q.idx
                   { rows := rows, lastPacket := lp, rsID := q.rr.rsID } }
       if rows.length = 0 then (NextOutcome.eof, q1)
       else (NextOutcome.row (rows.getD 0 0), { q1 with pos := 1 })) := by
  unfold queryResultSet.Next Session.fetchReply
  rw [hbad, if_neg Bool.false_ne_true, if_pos hpos, hlast,
    if_neg Bool.false_ne_true, hpage]
  simp [hbad]

/-- In the fetch region (not bad, page exhausted, not final) one Next
call issues exactly one fetchNext round trip, whatever the reply is. -/
theorem Next_fetch_counts (q : queryResultSet)
    (hbad : q.s.isBad = false) (hpos : q.rr.rows.length ≤ q.pos)
    (hlast : q.rr.lastPacket = false) :
    (q.Next).2.s.fetchCount = q.s.fetchCount + 1 := by
  cases hrep : q.s.script q.s.fetchCount with
  | page rows lp =>
    rw [Next_fetch_page q rows lp hbad hpos hlast hrep]
    by_cases h : rows.length = 0 <;> simp [h]
  | failure e =>
    rw [Next_fetch_failure q e hbad hpos hlast hrep]

/-- C3 amended: a fetch failure records the error in lastErr and returns
it from that Next call; Close then returns the recorded error without a
server-side call; but a subsequent Next call does not replay the
recorded error and does not avoid the network — with a session not
marked bad it issues another fetchNext round trip. -/
theorem fetch_failure_recorded (q : queryResultSet) (e : Nat)
    (hbad : q.s.isBad = false)
    (hidx : q.idx < q.rrs.length)
    (hpos : q.rr.rows.length ≤ q.pos)
    (hlast : q.rr.lastPacket = false)
    (hfail : q.s.script q.s.fetchCount = FetchReply.failure e) :
    (q.Next).1 = NextOutcome.failure e ∧
    (q.Next).2.lastErr = some e ∧
    ((q.Next).2.Close).1 = some e ∧
    ((q.Next).2.Close).2.s.closeCalls = (q.Next).2.s.closeCalls ∧
    ((q.Next).2.Next).2.s.fetchCount = q.s.fetchCount + 2 := by
  rw [Next_fetch_failure q e hbad hpos hlast hfail]
  refine ⟨rfl, rfl, rfl, rfl, ?_⟩
  have hrr :
      ({ q with s := { q.s with fetchCount := q.s.fetchCount + 1 }
              , rrs := q.rrs.set q.idx
                  { rows := [], lastPacket := false, rsID := q.rr.rsID }
              , lastErr := some e } : queryResultSet).rr =
        { rows := [], lastPacket := false, rsID := q.rr.rsID } :=
    getD_set_self q.rrs q.idx _ hidx
  have key := Next_fetch_counts
    { q with s := { q.s with fetchCount := q.s.fetchCount + 1 }
           , rrs := q.rrs.set q.idx
               { rows := [], lastPacket := false, rsID := q.rr.rsID }
           , lastErr := some e }
    hbad (by rw [hrr]; exact Nat.zero_le _) (by rw [hrr])
  exact key

/-- Witness for the amended C3 at the concrete scenario cursor. -/
theorem fetch_failure_recorded_wit :
    (c3Cursor.Next).1 = NextOutcome.failure 5 ∧
    (c3Cursor.Next).2.lastErr = some 5 ∧
    ((c3Cursor.Next).2.Close).1 = some 5 ∧
    ((c3Cursor.Next).2.Close).2.s.closeCalls = (c3Cursor.Next).2.s.closeCalls ∧
    ((c3Cursor.Next).2.Next).2.s.fetchCount = c3Cursor.s.fetchCount + 2 :=
  fetch_failure_recorded c3Cursor 5 rfl (by decide) (by decide) rfl rfl

/-- Session of the C4 scenario (never fetched from). -/
def c4Session : Session :=
  { sid := 3, isBad := false, script := fun _ => FetchReply.page [] true
  , closeReply := fun _ => none
  , fetchCount := 0, closeCalls := 0 }

/-- Cursor of the C4 scenario: two final result sets, the first with
three rows, the second with two rows. -/
def c4Cursor : queryResultSet :=
  { s := c4Session
  , rrs := [ { rows := [1, 2, 3], lastPacket := true, rsID := 31 }
           , { rows := [9, 8], lastPacket := true, rsID := 32 } ]
  , idx := 0, pos := 0, lastErr := none }

/-- C4 fails on the code: draining the first of two result sets leaves
pos = 3; NextResultSet succeeds but does not reset pos, so in the
reached state the position (3) exceeds the new current page's row count
(2), and the two rows of the second result set are skipped: the
following Next call returns io.EOF immediately. -/
theorem advance_violates_position_invariant :
    ((c4Cursor.runNext 3).2.pos = 3 ∧
      ((c4Cursor.runNext 3).2.NextResultSet).1 = AdvanceResult.ok) ∧
    (((c4Cursor.runNext 3).2.NextResultSet).2.pos = 3 ∧
      ((c4Cursor.runNext 3).2.NextResultSet).2.rr.rows.length = 2 ∧
      ¬ (((c4Cursor.runNext 3).2.NextResultSet).2.pos ≤
          ((c4Cursor.runNext 3).2.NextResultSet).2.rr.rows.length)) ∧
    (((c4Cursor.runNext 3).2.NextResultSet).2.Next).1 = NextOutcome.eof := by
  decide

/-- C10: whenever a further result set is available, NextResultSet
succeeds, advances the result set index, clears any recorded fetch
error, and touches nothing else, so a recorded error does not persist
across a successful advancement. -/
theorem advance_clears_last_error (q : queryResultSet)
    (h : q.idx + 1 < q.rrs.length) :
    (q.NextResultSet).1 = AdvanceResult.ok ∧
    (q.NextResultSet).2.lastErr = none ∧
    (q.NextResultSet).2.idx = q.idx + 1 ∧
    (q.NextResultSet).2.pos = q.pos ∧
    (q.NextResultSet).2.rrs = q.rrs ∧
    (q.NextResultSet).2.s = q.s := by
  have hb : q.HasNextResultSet = true := decide_eq_true h
  simp [queryResultSet.NextResultSet, hb]

/-- Cursor of the C10 witness: an error is recorded on the first result
set and a second result set is available. -/
def c10Cursor : queryResultSet :=
  { s := { sid := 4, isBad := false, script := fun _ => FetchReply.page [] true
         , closeReply := fun _ => none
         , fetchCount := 0, closeCalls := 0 }
  , rrs := [ { rows := [], lastPacket := false, rsID := 41 }
           , { rows := [6], lastPacket := true, rsID := 42 } ]
  , idx := 0, pos := 0, lastErr := some 9 }

/-- Witness for C10 at the concrete errored cursor. -/
theorem advance_clears_last_error_wit :
    (c10Cursor.NextResultSet).1 = AdvanceResult.ok ∧
    (c10Cursor.NextResultSet).2.lastErr = none ∧
    (c10Cursor.NextResultSet).2.idx = c10Cursor.idx + 1 ∧
    (c10Cursor.NextResultSet).2.pos = c10Cursor.pos ∧
    (c10Cursor.NextResultSet).2.rrs = c10Cursor.rrs ∧
    (c10Cursor.NextResultSet).2.s = c10Cursor.s :=
  advance_clears_last_error c10Cursor (by decide)

/-- C8: one Next call issues at most one fetchNext round trip, in every
cursor state; and when the page fetched at an exhausted non-final page
is empty, that same call already returns io.EOF after its single fetch,
so there is no retry loop. -/
theorem next_at_most_one_fetch (q : queryResultSet) :
    (q.Next).2.s.fetchCount ≤ q.s.fetchCount + 1 ∧
    (∀ lp : Bool, q.s.isBad = false → q.rr.rows.length ≤ q.pos →
      q.rr.lastPacket = false →
      q.s.script q.s.fetchCount = FetchReply.page [] lp →
      (q.Next).1 = NextOutcome.eof ∧
      (q.Next).2.s.fetchCount = q.s.fetchCount + 1) := by
  constructor
  · cases hbad : q.s.isBad with
    | true =>
      rw [Next_bad q hbad]
      exact Nat.le_succ _
    | false =>
      by_cases hpos : q.rr.rows.length ≤ q.pos
      · cases hlast : q.rr.lastPacket with
        | true =>
          rw [Next_eof q hbad hpos hlast]
          exact Nat.le_succ _
        | false =>
          rw [Next_fetch_counts q hbad hpos hlast]
      · rw [Next_row q hbad (Nat.lt_of_not_le hpos)]
        exact Nat.le_succ _
  · intro lp hbad hpos hlast hpage
    rw [Next_fetch_page q [] lp hbad hpos hlast hpage]
    exact ⟨rfl, rfl⟩

/-- Cursor of the C8 witness: the single fetch returns an empty
non-final page. -/
def c8Cursor : queryResultSet :=
  { s := { sid := 5, isBad := false, script := fun _ => FetchReply.page [] false
         , closeReply := fun _ => none
         , fetchCount := 0, closeCalls := 0 }
  , rrs := [ { rows := [], lastPacket := false, rsID := 51 } ]
  , idx := 0, pos := 0, lastErr := none }

/-- Witness for C8 at the concrete cursor whose fetch yields an empty
page. -/
theorem next_at_most_one_fetch_wit :
    (c8Cursor.Next).2.s.fetchCount ≤ c8Cursor.s.fetchCount + 1 ∧
    ((c8Cursor.Next).1 = NextOutcome.eof ∧
      (c8Cursor.Next).2.s.fetchCount = c8Cursor.s.fetchCount + 1) :=
  ⟨(next_at_most_one_fetch c8Cursor).1,
    (next_at_most_one_fetch c8Cursor).2 false rfl (by decide) rfl rfl⟩

theorem Close_err (q : queryResultSet) (e : Nat) (h : q.lastErr = some e) :
    q.Close = (some e, q) := by
  unfold queryResultSet.Close
  rw [h]

theorem Close_closed (q : queryResultSet) (herr : q.lastErr = none)
    (hcl : q.rr.closed = true) : q.Close = (none, q) := by
  unfold queryResultSet.Close
  rw [herr, hcl]
  simp

theorem Close_release (q : queryResultSet) (herr : q.lastErr = none)
    (hcl : q.rr.closed = false) :
    q.Close =
      (q.s.closeReply q.s.closeCalls,
        { q with s := { q.s with closeCalls := q.s.closeCalls + 1 } }) := by
  unfold queryResultSet.Close
  rw [herr, hcl]
  simp

/-- Cursor of the C6 counterexample and witness release part: one row
still pending (page not final), no recorded error; the server answers
the first CloseResultsetID call with error 13 and acknowledges the
second. -/
def c6aCursor : queryResultSet :=
  { s := { sid := 8, isBad := false, script := fun _ => FetchReply.page [] true
         , closeReply := fun n => if n = 0 then some 13 else none
         , fetchCount := 0, closeCalls := 0 }
  , rrs := [ { rows := [1], lastPacket := false, rsID := 81 } ]
  , idx := 0, pos := 0, lastErr := none }

/-- Counterexample to C6: Close is not idempotent.  On an undrained,
non-errored cursor the first Close issues a server-side release and the
second Close issues another one (the call counter reaches 2), and the
two calls return different results (the first returns the server error
13, the second returns the ack). -/
theorem close_not_idempotent :
    (c6aCursor.Close).2.s.closeCalls = 1 ∧
    ((c6aCursor.Close).2.Close).2.s.closeCalls = 2 ∧
    (c6aCursor.Close).1 = some 13 ∧
    ((c6aCursor.Close).2.Close).1 = none := by
  decide

/-- C6 amended: Close issues a server-side release exactly when the
result set is not already closed (final packet received) and no fetch
error is recorded, and then returns that call's own reply; with a
recorded error Close skips the server call and returns the stored
error; Close changes no cursor field, but it is not idempotent: every
Close on an undrained, non-errored cursor issues another server-side
release. -/
theorem close_release_and_repeat (q : queryResultSet) :
    ((q.Close).2.s.closeCalls = q.s.closeCalls + 1 ↔
      (q.lastErr = none ∧ q.rr.closed = false)) ∧
    (∀ e : Nat, q.lastErr = some e →
      (q.Close).1 = some e ∧ (q.Close).2.s.closeCalls = q.s.closeCalls) ∧
    (q.lastErr = none → q.rr.closed = false →
      (q.Close).1 = q.s.closeReply q.s.closeCalls ∧
      ((q.Close).2.Close).2.s.closeCalls = q.s.closeCalls + 2) ∧
    ((q.Close).2.rrs = q.rrs ∧ (q.Close).2.idx = q.idx ∧
      (q.Close).2.pos = q.pos ∧ (q.Close).2.lastErr = q.lastErr) := by
  cases herr : q.lastErr with
  | some e =>
    rw [Close_err q e herr]
    refine ⟨by simp, ?_, ?_, ⟨rfl, rfl, rfl, herr⟩⟩
    · intro e2 he2
      cases he2
      exact ⟨rfl, rfl⟩
    · intro hn
      exact Option.noConfusion hn
  | none =>
    cases hcl : q.rr.closed with
    | true =>
      rw [Close_closed q herr hcl]
      refine ⟨by simp, ?_, ?_, ⟨rfl, rfl, rfl, herr⟩⟩
      · intro e2 he2
        exact Option.noConfusion he2
      · intro hn hcf
        exact Bool.noConfusion hcf
    | false =>
      rw [Close_release q herr hcl]
      refine ⟨by simp, ?_, ?_, ⟨rfl, rfl, rfl, herr⟩⟩
      · intro e2 he2
        exact Option.noConfusion he2
      · intro hn hcf
        refine ⟨rfl, ?_⟩
        have h2 := Close_release
          { q with s := { q.s with closeCalls := q.s.closeCalls + 1 } } herr hcl
        show (({ q with s := { q.s with closeCalls := q.s.closeCalls + 1 } } :
            queryResultSet).Close).2.s.closeCalls = q.s.closeCalls + 2
        rw [h2]

/-- Cursor of the C6 witness errored part: a fetch error 4 is recorded. -/
def c6Cursor : queryResultSet :=
  { s := { sid := 6, isBad := false, script := fun _ => FetchReply.page [] true
         , closeReply := fun _ => none
         , fetchCount := 0, closeCalls := 0 }
  , rrs := [ { rows := [], lastPacket := false, rsID := 61 } ]
  , idx := 0, pos := 0, lastErr := some 4 }

/-- Witness for the amended C6: on the errored cursor Close returns the
stored error without a server-side call; on the undrained non-errored
cursor Close returns the release call's reply and a repeated Close
issues a second release. -/
theorem close_release_and_repeat_wit :
    ((c6Cursor.Close).1 = some 4 ∧
      (c6Cursor.Close).2.s.closeCalls = c6Cursor.s.closeCalls) ∧
    ((c6aCursor.Close).1 = c6aCursor.s.closeReply c6aCursor.s.closeCalls ∧
      ((c6aCursor.Close).2.Close).2.s.closeCalls = c6aCursor.s.closeCalls + 2) :=
  ⟨(close_release_and_repeat c6Cursor).2.1 4 rfl,
    (close_release_and_repeat c6aCursor).2.2.1 rfl rfl⟩

/-- The query result set cache (Go struct queryResultSetCache): a map
from a 64-bit identifier to a cursor.  The Go map is embedded as a
function into Option; the reader/writer lock only serialises access and
has no functional behaviour. -/
def queryResultSetCache := Nat → Option queryResultSet

/-- Go func (c *queryResultSetCache) set. -/
def queryResultSetCache.set (c : queryResultSetCache) (id : Nat)
    (qrs : queryResultSet) : queryResultSetCache :=
  fun x => if x = id then some qrs else c x

/-- Go func (c *queryResultSetCache) Get: the looked-up cursor together
with the found flag of the Go map access. -/
def queryResultSetCache.Get (c : queryResultSetCache) (id : Nat) :
    Option queryResultSet × Bool :=
  (c id, (c id).isSome)

/-- Go func (c *queryResultSetCache) cleanup: removes every entry whose
cursor is owned by the given session.  Go compares session pointers;
sessions are identified here by their sid. -/
def queryResultSetCache.cleanup (c : queryResultSetCache) (sid : Nat) :
    queryResultSetCache :=
  fun x => match c x with
    | some qrs => if qrs.s.sid = sid then none else some qrs
    | none => none

/-- C5: registering a cursor makes the lookup of its identifier return
it with found = true; after evicting the owning session the lookup
misses; and eviction removes exactly the entries owned by the given
session, leaving entries of other sessions unchanged. -/
theorem cache_register_lookup_evict (c : queryResultSetCache) (id : Nat)
    (qrs : queryResultSet) (sid : Nat) :
    (queryResultSetCache.Get (queryResultSetCache.set c id qrs) id =
      (some qrs, true)) ∧
    (qrs.s.sid = sid →
      queryResultSetCache.Get
        (queryResultSetCache.cleanup (queryResultSetCache.set c id qrs) sid)
        id = (none, false)) ∧
    (∀ x q2, (queryResultSetCache.cleanup c sid) x = some q2 ↔
      (c x = some q2 ∧ q2.s.sid ≠ sid)) := by
  refine ⟨?_, ?_, ?_⟩
  · simp [queryResultSetCache.Get, queryResultSetCache.set]
  · intro h
    simp [queryResultSetCache.Get, queryResultSetCache.set,
      queryResultSetCache.cleanup, h]
  · intro x q2
    simp only [queryResultSetCache.cleanup]
    cases hc : c x with
    | none => simp
    | some q3 =>
      by_cases hs : q3.s.sid = sid
      · simp only [if_pos hs]
        constructor
        · intro h
          exact Option.noConfusion h
        · rintro ⟨h1, h2⟩
          cases h1
          exact absurd hs h2
      · simp only [if_neg hs]
        constructor
        · intro h
          cases h
          exact ⟨rfl, hs⟩
        · rintro ⟨h1, h2⟩
          exact h1

/-- Cursor of the C5 witness, owned by session 7. -/
def c5Cursor : queryResultSet :=
  { s := { sid := 7, isBad := false, script := fun _ => FetchReply.page [] true
         , closeReply := fun _ => none
         , fetchCount := 0, closeCalls := 0 }
  , rrs := [ { rows := [1], lastPacket := true, rsID := 71 } ]
  , idx := 0, pos := 0, lastErr := none }

/-- The empty cache. -/
def emptyCache : queryResultSetCache := fun _ => none

/-- Witness for C5: register(7, cursor of session 7), then lookup hits;
after cleanup of session 7 the lookup misses. -/
theorem cache_register_lookup_evict_wit :
    (queryResultSetCache.Get (queryResultSetCache.set emptyCache 7 c5Cursor) 7 =
      (some c5Cursor, true)) ∧
    queryResultSetCache.Get
      (queryResultSetCache.cleanup
        (queryResultSetCache.set emptyCache 7 c5Cursor) 7) 7 = (none, false) :=
  ⟨(cache_register_lookup_evict emptyCache 7 c5Cursor 7).1,
    (cache_register_lookup_evict emptyCache 7 c5Cursor 7).2.1 rfl⟩

/-- Modelled from the spec: days since 1970-01-01 of a proleptic
Gregorian civil date.  The timestamp field encoder is not among the
given sources; this is the standard civil-date correspondence that the
rounding behaviour of the test is stated against. -/
def daysFromCivil (y m d : Int) : Int :=
  let y1 : Int := if m ≤ 2 then y - 1 else y
  let era : Int := (if 0 ≤ y1 then y1 else y1 - 399) / 400
  let yoe : Int := y1 - era * 400
  let mp : Int := (m + 9) % 12
  let doy : Int := (153 * mp + 2) / 5 + d - 1
  let doe : Int := yoe * 365 + yoe / 4 - yoe / 100 + doy
  era * 146097 + doe - 719468

/-- Nanoseconds since the epoch of a civil date-time. -/
def civilToNs (y mo d h mi s ns : Int) : Int :=
  ((daysFromCivil y mo d) * 86400 + h * 3600 + mi * 60 + s) * 1000000000 + ns

/-- Modelled from the spec: the timestamp column encoder rounds the
supplied instant to the column's coarser sub-second unit (milliseconds
for the timestamp column of the rounding test) to the nearest
representable unit, not toward zero. -/
def encodeTimestampMillis (t : Int) : Int := (t + 500000) / 1000000

/-- The instant denoted by a stored millisecond count. -/
def decodeTimestampMillis (ms : Int) : Int := ms * 1000000

/-- C9: encoding rounds to the nearest representable millisecond (the
stored instant is always within half a unit of the supplied one), and
the concrete test instant 2000-12-31 23:59:59.999999900 rounds upward
across the second, minute, hour, day and year boundary to exactly
2001-01-01 00:00:00. -/
theorem timestamp_rounds_to_nearest :
    (∀ t : Int,
      t ≤ decodeTimestampMillis (encodeTimestampMillis t) + 500000 ∧
      decodeTimestampMillis (encodeTimestampMillis t) ≤ t + 500000) ∧
    decodeTimestampMillis
        (encodeTimestampMillis (civilToNs 2000 12 31 23 59 59 999999900)) =
      civilToNs 2001 1 1 0 0 0 0 ∧
    civilToNs 2000 12 31 23 59 59 999999900 <
      decodeTimestampMillis
        (encodeTimestampMillis (civilToNs 2000 12 31 23 59 59 999999900)) := by
  refine ⟨?_, by decide, by decide⟩
  intro t
  unfold decodeTimestampMillis encodeTimestampMillis
  omega
